import Mathlib

set_option linter.unusedVariables false

/-!
Verification development for the sublime-gemini editor extension
(`gemini_ai.py`, `plugin/commands.py`, `plugin/settings.py`).

The Python code is shallowly embedded: dictionaries become association
lists over a small JSON value type, the validation pipeline of the async
API client becomes a function into `Except`, the worker thread's field
writes become an explicit event list, and the UI-thread polling loop
becomes a trace-producing recursive function.
-/

/-- JSON-like values, modelling the Python values stored in settings
objects and request payloads.  Numbers are modelled as integers (the
code and its defaults only ever use integral generation parameters). -/
inductive JValue where
  | null
  | bool (b : Bool)
  | num (n : Int)
  | str (s : String)
  | arr (xs : List JValue)
  | obj (fields : List (String × JValue))

/-- A Python dict with string keys, as an association list (dict keys are
unique, so first-match lookup is the dict lookup). -/
abbrev Obj := List (String × JValue)

/-- Python `d.get(key)`: `none` when the key is absent. -/
def dget (fs : Obj) (k : String) : Option JValue :=
  List.lookup k fs

/-- Python `d.get(key, default)`. -/
def dgetD (fs : Obj) (k : String) (d : JValue) : JValue :=
  (dget fs k).getD d

/-- Python `v is None` for an embedded value: true exactly on `null`. -/
def JValue.isNull : JValue → Bool
  | .null => true
  | _ => false

/-- Python truthiness of an embedded value. -/
def JValue.truthy : JValue → Bool
  | .null => false
  | .bool b => b
  | .num n => n != 0
  | .str s => s != ""
  | .arr xs => xs.length != 0
  | .obj fs => fs.length != 0

/-- A Sublime selection region with endpoints `a`, `b`
(`sublime.Region(a, b)`); `Region.empty()` is `a == b`. -/
structure Region where
  a : Nat
  b : Nat
deriving DecidableEq, Repr

/-- Sublime `region.empty()`. -/
def Region.isEmpty (r : Region) : Bool :=
  r.a == r.b

/-- The slice of a view visible to the plugin: the per-view `GeminiAI`
override mapping (`view.settings().get("GeminiAI", {})`, `[]` when the
key is absent), the global settings object loaded from
`gemini-ai.sublime-settings`, and the selection list `view.sel()`. -/
structure ViewModel where
  gemini : Obj
  globals : Obj
  sel : List Region

/-- `view_settings(view)` from `plugin/settings.py`: the view's
`GeminiAI` override mapping. -/
def view_settings (v : ViewModel) : Obj :=
  v.gemini

/-- Sublime `plugin_settings().get(key, default)`: the stored global
value (even `null`) wins; the default is used only when the key is
absent. -/
def plugin_settings_get (v : ViewModel) (key : String) (default : JValue) : JValue :=
  (dget v.globals key).getD default

/-- `get_setting(view, key, default)` from `plugin/settings.py` (and
identically `gemini_ai.py`): the buffer override wins when present and
not `None`; otherwise the global setting with the caller's default.
The `except KeyError` fallback in the source returns the same global
lookup and is unreachable in this pure embedding (`dict.get` never
raises `KeyError`). -/
def get_setting (v : ViewModel) (key : String) (default : JValue := .null) : JValue :=
  match dget (view_settings v) key with
  | some val => if val.isNull then plugin_settings_get v key default else val
  | none => plugin_settings_get v key default

/-!  The async API client's response validation pipeline
(`AsyncGemini.get_gemini_response`, `gemini_ai.py` lines 93-187).
The parsed response JSON is embedded as a structure recording exactly
the fields the code reads; each `Option` is an optional dict key. -/

/-- One entry of `promptFeedback.safetyRatings`.  `blocked` is the
truthiness of `rating.get("blocked")` (absent key is falsy). -/
structure SafetyRating where
  blocked : Bool
  reason : Option String
deriving Repr

/-- One entry of `candidates[i].content.parts` (named `RespPart` to
avoid clashing with Mathlib's `Part`). -/
structure RespPart where
  text : Option String
deriving Repr

/-- `candidates[i].content`. -/
structure Content where
  parts : List RespPart
deriving Repr

/-- One entry of `candidates`. -/
structure Candidate where
  finishReason : Option String
  content : Option Content
deriving Repr

/-- `promptFeedback`. -/
structure PromptFeedback where
  safetyRatings : List SafetyRating
deriving Repr

/-- `usageMetadata`. -/
structure UsageMetadata where
  totalTokenCount : Option Nat
deriving Repr

/-- The top-level `error` object.  A present `error` key is modelled as
truthy (the API's error objects are non-empty dicts). -/
structure ApiError where
  message : Option String
deriving Repr

/-- The parsed response body, restricted to the fields the client
reads. -/
structure GeminiResponse where
  error : Option ApiError
  promptFeedback : Option PromptFeedback
  candidates : List Candidate
  usageMetadata : Option UsageMetadata
deriving Repr

/-- `usage_metadata = response_dict.get("usageMetadata", {})` followed by
`usage_metadata.get("totalTokenCount", 0)`. -/
def totalTokenCount (resp : GeminiResponse) : Nat :=
  match resp.usageMetadata with
  | some u => u.totalTokenCount.getD 0
  | none => 0

/-- Extraction tail of the pipeline (`gemini_ai.py` lines 176-187):
`content_parts = first_candidate.get("content", {}).get("parts", [])`,
the empty-parts check, `ai_text = content_parts[0].get("text", "")` and
the empty-text check. -/
def extract_text (c : Candidate) : Except String String :=
  let content_parts := match c.content with
    | some ct => ct.parts
    | none => []
  match content_parts with
  | [] => .error "No content parts found in AI response. This could be due to an empty model response even after successful generation."
  | p :: _ =>
    let ai_text := p.text.getD ""
    if ai_text = "" then .error "No text content found in AI response part."
    else .ok ai_text

/-- `prompt_feedback = response_dict.get("promptFeedback", {})` followed
by `prompt_feedback.get("safetyRatings", [])`. -/
def safety_ratings_of (resp : GeminiResponse) : List SafetyRating :=
  match resp.promptFeedback with
  | some pf => pf.safetyRatings
  | none => []

/-- The response validation pipeline of
`AsyncGemini.get_gemini_response` (`gemini_ai.py` lines 138-187), after
the HTTP exchange: top-level error, blocked prompt safety rating (the
`for` loop raises at the first blocked entry, modelled by `find?`),
missing candidates, the `finishReason` dispatch (a falsy
`finish_reason` skips the dispatch), then content extraction.  `.error`
is the message of the `ValueError` the code raises. -/
def get_gemini_response (resp : GeminiResponse) : Except String String :=
  match resp.error with
  | some err => .error ("API Error: " ++ err.message.getD "Unknown API error")
  | none =>
    match (safety_ratings_of resp).find? (·.blocked) with
    | some rating => .error ("Prompt blocked by safety filters: " ++ rating.reason.getD "Unknown reason")
    | none =>
      match resp.candidates with
      | [] => .error "Gemini did not return any candidates. The model might have generated no response or encountered an internal issue."
      | first_candidate :: _ =>
        let finish_reason := first_candidate.finishReason.getD ""
        if finish_reason ≠ "" then
          if finish_reason = "STOP" then extract_text first_candidate
          else if finish_reason = "MAX_TOKENS" then
            .error ("Gemini finished early due to max tokens limit. Used " ++ toString (totalTokenCount resp) ++ " tokens. Try increasing \x27max_tokens\x27 in settings.")
          else if finish_reason = "SAFETY" then
            .error "Gemini response blocked by safety filters."
          else if finish_reason = "RECITATION" then
            .error "Gemini response blocked due to recitation policy."
          else .error ("Gemini finished early with reason: " ++ finish_reason)
        else extract_text first_candidate

/-!  The async worker's run loop (`AsyncGemini.run`, `gemini_ai.py`
lines 77-91).  The body is a straight-line sequence of field writes:
`running = True`, `result = None`, `error = None`, then the `try` block
writes `result` on success and the `except` block writes `error` on any
raise, and the `finally` block writes `running = False` last. -/

/-- The three poll-visible fields of an `AsyncGemini` instance. -/
structure AsyncState where
  running : Bool
  result : Option String
  error : Option String
deriving DecidableEq, Repr

/-- One field assignment performed by `AsyncGemini.run`. -/
inductive FieldWrite where
  | wRunning (b : Bool)
  | wResult (v : Option String)
  | wError (v : Option String)
deriving DecidableEq, Repr

/-- Apply a field write to the worker state. -/
def applyWrite (s : AsyncState) : FieldWrite → AsyncState
  | .wRunning b => { s with running := b }
  | .wResult v => { s with result := v }
  | .wError v => { s with error := v }

/-- The ordered field writes of one execution of `AsyncGemini.run`,
parameterized by the outcome of the network attempt
(`get_gemini_response` returning text, or any exception carrying its
message). -/
def run_writes (outcome : Except String String) : List FieldWrite :=
  [.wRunning true, .wResult none, .wError none] ++
    (match outcome with
     | .ok s => [.wResult (some s)]
     | .error e => [.wError (some e)]) ++
    [.wRunning false]

/-- The worker state after `AsyncGemini.run` completes, from an
arbitrary prior state. -/
def run_final (s0 : AsyncState) (outcome : Except String String) : AsyncState :=
  (run_writes outcome).foldl applyWrite s0

example : run_final ⟨false, none, none⟩ (.ok "hi") = ⟨false, some "hi", none⟩ := by decide
example : run_final ⟨true, some "x", none⟩ (.error "boom") = ⟨false, none, some "boom"⟩ := by decide

/-!  The command layer (`plugin/commands.py`). -/

/-- A user-visible UI surface touched by the command layer's
validation: a blocking `sublime.error_message` dialog or a
`sublime.status_message` status-bar message. -/
inductive UIEvent where
  | errorDialog (msg : String)
  | statusMessage (msg : String)
deriving DecidableEq, Repr

/-- `GeminiCommand.check_setup` (`plugin/commands.py` lines 21-45):
missing `api_token` shows a blocking error dialog and raises; an empty
selection list, or an empty primary selection, raises with a status
message unless `no_empty_selection` is disabled.  `.error e` is the
`ValueError` path after showing `e`. -/
def check_setup (v : ViewModel) : Except UIEvent Unit :=
  let key := get_setting v "api_token" .null
  if key.isNull then
    .error (.errorDialog "Please put an \x27api_token\x27 in the GeminiAI package settings")
  else
    let no_empty_selection := (get_setting v "no_empty_selection" (.bool true)).truthy
    if v.sel.isEmpty && no_empty_selection then
      .error (.statusMessage "Please highlight a section of code.")
    else if (!v.sel.isEmpty) && ((v.sel.head?.map Region.isEmpty).getD false) && no_empty_selection then
      .error (.statusMessage "Please highlight a section of code.")
    else
      .ok ()

/-- Observable outcome of one invocation of
`CompletionGeminiCommand.run`.  `started r` abstracts
`_prepare_and_run_gemini_thread`: an `AsyncGemini` worker is
constructed on region `r` and started; `crash` models the uncaught
`IndexError` raised by `self.view.sel()[0]` on an empty selection
list. -/
inductive RunOutcome where
  | aborted (e : UIEvent)
  | crash
  | started (r : Region)
deriving DecidableEq, Repr

/-- `CompletionGeminiCommand.run` (`plugin/commands.py` lines 194-210):
`check_setup` inside `try/except ValueError` (abort on raise), the
zero-selection guard re-reading `no_empty_selection`, then
`self.view.sel()[0]` and the handoff to the worker. -/
def completion_run (v : ViewModel) : RunOutcome :=
  match check_setup v with
  | .error e => .aborted e
  | .ok _ =>
    let no_empty_selection := (get_setting v "no_empty_selection" (.bool true)).truthy
    if (v.sel.length == 0) && no_empty_selection then
      .aborted (.statusMessage "Please highlight only 1 chunk of code.")
    else
      match v.sel.head? with
      | none => .crash
      | some region => .started region

/-- The worker fields `GeminiCommand.handle_thread` reads on one poll
tick. -/
structure WorkerView where
  running : Bool
  error : Option String
  result : Option String
deriving Repr

/-- Python truthiness of an optional string attribute (`thread.error`,
`thread.result`): falsy when `None` or the empty string. -/
def strOptTruthy : Option String → Bool
  | some s => s != ""
  | none => false

/-- One UI action taken by a tick of the polling loop.
`statusTimeout` is the "Gemini ran out of time" status message,
`statusThinking` the "Gemini is thinking (seconds/maxS s)" status
message, `errorDialog` the blocking `sublime.error_message`,
`statusNoResult` the defensive "no result" status message,
`successCallback` the dispatch of `on_success_callback(thread)`, and
`crash` a `TypeError` from comparing against a non-numeric
`max_seconds` setting. -/
inductive PollEvent where
  | statusTimeout (maxS : Int)
  | statusThinking (seconds : Nat) (maxS : Int)
  | errorDialog (msg : String)
  | statusNoResult
  | successCallback
  | crash
deriving DecidableEq, Repr

/-- The polling chain of `GeminiCommand.handle_thread`
(`plugin/commands.py` lines 47-87) with `max_seconds` already resolved:
on each tick, compare `seconds > max_seconds` (timeout, stop); else if
the worker is running, show the thinking status and reschedule with
`seconds + 1`; else dispatch on `thread.error` truthiness, then
`thread.result` falsiness, then success.  `worker n` is the worker
state the tick scheduled at `n` seconds observes; the returned list is
the chain's whole UI trace. -/
def handle_thread_go (maxS : Int) (worker : Nat → WorkerView) (seconds : Nat) : List PollEvent :=
  if (seconds : Int) > maxS then [.statusTimeout maxS]
  else if (worker seconds).running then
    .statusThinking seconds maxS :: handle_thread_go maxS worker (seconds + 1)
  else if strOptTruthy (worker seconds).error then
    [.errorDialog ("Gemini AI Error: " ++ ((worker seconds).error.getD ""))]
  else if !(strOptTruthy (worker seconds).result) then
    [.statusNoResult]
  else
    [.successCallback]
termination_by (maxS + 1).toNat - seconds
decreasing_by
  rename_i h _
  simp only [not_lt] at h
  omega

/-- `GeminiCommand.handle_thread` from its entry tick: the code
re-reads `max_seconds = get_setting(view, "max_seconds", 60)` on every
tick, which yields the same value each time for a fixed view, so it is
resolved once here.  A non-numeric resolved value would make the
Python `>` comparison raise; modelled as `crash`. -/
def handle_thread (v : ViewModel) (worker : Nat → WorkerView) (seconds : Nat := 0) : List PollEvent :=
  match get_setting v "max_seconds" (.num 60) with
  | .num max_seconds => handle_thread_go max_seconds worker seconds
  | _ => [.crash]

/-!  Request construction inside `AsyncGemini.get_gemini_response`
(`gemini_ai.py` lines 98-129): the `model` key is popped from a copy of
the payload before the body is serialized, and is interpolated into the
URL path instead. -/

/-- `payload_for_body = self.data.copy()` followed by
`del payload_for_body["model"]` when present (dict keys are unique, so
removing every pair with that key equals removing the one). -/
def payload_for_body (data : Obj) : Obj :=
  data.filter (fun p => p.1 != "model")

/-- `self.data.get("model", "gemini-2.5-flash")`. -/
def model_name_of (data : Obj) : JValue :=
  dgetD data "model" (.str "gemini-2.5-flash")

/-- The URL path
`"/v1beta/models/{}:{}?key={}".format(model_name, "generateContent", token)`. -/
def request_path (model_name api_token : String) : String :=
  "/v1beta/models/" ++ model_name ++ ":generateContent?key=" ++ api_token

/-- The HTTP request handed to `conn.request`, with the body kept at
the dict level (the code serializes it with `json.dumps`, which is a
faithful encoding of the dict). -/
structure ApiRequest where
  method : String
  path : String
  headers : List (String × String)
  body : Obj

/-- Assembly of the outgoing request (`gemini_ai.py` lines 109-129).
Every payload the plugin builds stores a string under `model` (or omits
it); a non-string value, which `format` would stringify into the path,
is out of the program's reachable payloads and modelled as `none`. -/
def build_api_request (data : Obj) (api_token : String) : Option ApiRequest :=
  match model_name_of data with
  | .str model_name =>
      some ⟨"POST", request_path model_name api_token,
            [("Content-Type", "application/json")], payload_for_body data⟩
  | _ => none

/-!  The instruct command's payload (`InstructGeminiCommand.get_prompt_data`,
`plugin/commands.py` lines 222-239). -/

/-- The fenced-code-plus-instruction block
`"{} Code:\n\n```{}\n{}\n```\n\nInstruction:\n\n{}"` formatted with the
syntax name, its lowercase form, the content, and the user input
(`plugin/commands.py` lines 137-140 and the superseded
`gemini_ai.py` line 433). -/
def instruction_block (syntax_name content user_input : String) : String :=
  syntax_name ++ " Code:\n\n```" ++ syntax_name.toLower ++ "\n" ++ content ++ "\n```\n\nInstruction:\n\n" ++ user_input

/-- Modelled from the spec: `evaluate_instruction_snippet` is imported
by `plugin/commands.py` from `plugin.settings` but is absent from the
source tree.  Per the spec, the instruct payload text "combines a
persona sentence (You are a helpful ... coding assistant, respond with
markdown, do not over-explain) with the same fenced-code+instruction
block"; the persona wording follows the superseded in-tree iteration
(`EditGeminiCommand.get_prompt_data`, `gemini_ai.py` line 440). -/
def evaluate_instruction_snippet (syntax_name user_input content : String) : String :=
  "You are a helpful " ++ syntax_name ++ " coding assistant. The user is a programmer so you don\x27t need to over explain. Respond with markdown.\n"
    ++ instruction_block syntax_name content user_input

/-- `InstructGeminiCommand.get_prompt_data`: resolve the `instruct`
settings block, evaluate the prompt text, and build the payload dict.
`none` models the `AttributeError` raised by `settingse.get` when the
resolved `instruct` setting is not a dict (its shipped default is an
object). -/
def instruct_get_prompt_data (v : ViewModel) (content syntax_name user_input : String) : Option Obj :=
  match get_setting v "instruct" .null with
  | .obj settingse =>
      some [("model", dgetD settingse "model" (.str "gemini-2.5-flash")),
            ("contents", .arr [.obj [("role", .str "user"),
              ("parts", .arr [.obj [("text", .str (evaluate_instruction_snippet syntax_name user_input content))]])]]),
            ("generationConfig", .obj [("temperature", dgetD settingse "temperature" (.num 0)),
              ("top_p", dgetD settingse "top_p" (.num 1))])]
  | _ => none

/-- Substring containment, used to state which fragments a surfaced
message carries. -/
def containsStr (hay needle : String) : Prop :=
  needle.toList <:+: hay.toList

instance (hay needle : String) : Decidable (containsStr hay needle) :=
  List.decidableInfix _ _

/-!  Helper lemmas about substring containment. -/

theorem containsStr_of_eq (pre needle post : String) :
    containsStr (pre ++ needle ++ post) needle := by
  show needle.toList <:+: ((pre ++ needle) ++ post).toList
  have h : ((pre ++ needle) ++ post).toList = pre.toList ++ needle.toList ++ post.toList := by
    simp [String.toList, String.data_append]
  rw [h]
  exact List.infix_append _ _ _

theorem containsStr_of_right (a b needle : String) (h : containsStr b needle) :
    containsStr (a ++ b) needle := by
  show needle.toList <:+: (a ++ b).toList
  have he : (a ++ b).toList = a.toList ++ b.toList := by
    simp [String.toList, String.data_append]
  rw [he]
  exact h.trans (List.suffix_append _ _).isInfix

/-!  Claim theorems. -/

/-- C1: every execution of `AsyncGemini.run`, whether the network
attempt returns text or raises, ends with `running = false`, with
exactly one of `result`/`error` set (success text or failure message,
never both, never neither), and the write of `running = false` is the
final state change (it is the last write and occurs nowhere earlier in
the post-start sequence). -/
theorem asyncRun_terminal_state (s0 : AsyncState) (outcome : Except String String) :
    (run_final s0 outcome).running = false ∧
    ((∃ r, (run_final s0 outcome).result = some r ∧ (run_final s0 outcome).error = none) ∨
     ((run_final s0 outcome).result = none ∧ ∃ e, (run_final s0 outcome).error = some e)) ∧
    (run_writes outcome).getLast? = some (.wRunning false) ∧
    FieldWrite.wRunning false ∉ (run_writes outcome).dropLast := by
  cases outcome <;>
    simp [run_final, run_writes, applyWrite, List.getLast?, List.dropLast]

/-- C2: `get_setting` returns the buffer-tier override when present and
not `None`; when the buffer tier does not define the key (absent or
`None`), it returns the global setting when that tier defines the key,
and the caller's default when neither tier does. -/
theorem get_setting_two_tier (v : ViewModel) (key : String) (default : JValue) :
    (∀ val, dget (view_settings v) key = some val → val.isNull = false →
        get_setting v key default = val) ∧
    ((dget (view_settings v) key = none ∨ dget (view_settings v) key = some JValue.null) →
      (∀ g, dget v.globals key = some g → get_setting v key default = g) ∧
      (dget v.globals key = none → get_setting v key default = default)) := by
  refine ⟨?_, ?_⟩
  · intro val hv hnull
    simp [get_setting, hv, hnull]
  · intro h
    refine ⟨?_, ?_⟩
    · intro g hg
      rcases h with h | h <;>
        simp [get_setting, plugin_settings_get, h, hg, JValue.isNull]
    · intro hg
      rcases h with h | h <;>
        simp [get_setting, plugin_settings_get, h, hg, JValue.isNull]

/-- A concrete two-tier configuration used by the C2 witness. -/
def c2view : ViewModel :=
  ⟨[("k1", JValue.str "buf"), ("k2", JValue.null)], [("k2", JValue.str "glob")], []⟩

/-- Witness for C2 on a concrete two-tier configuration: a non-null
buffer override wins, a `null` buffer entry falls through to the global
tier, and an undefined key yields the default. -/
theorem get_setting_two_tier_witness :
    get_setting c2view "k1" (JValue.str "d") = JValue.str "buf" ∧
    get_setting c2view "k2" (JValue.str "d") = JValue.str "glob" ∧
    get_setting c2view "k3" (JValue.str "d") = JValue.str "d" := by
  refine ⟨?_, ?_, ?_⟩
  · exact (get_setting_two_tier c2view "k1" (JValue.str "d")).1 (JValue.str "buf") rfl rfl
  · exact ((get_setting_two_tier c2view "k2" (JValue.str "d")).2 (Or.inr rfl)).1 (JValue.str "glob") rfl
  · exact ((get_setting_two_tier c2view "k3" (JValue.str "d")).2 (Or.inl rfl)).2 rfl

/-- C3: a response with no top-level error, no blocked safety rating,
first candidate `finishReason = "STOP"`, non-empty `content.parts` and
a non-empty `parts[0].text` makes the client succeed with exactly that
text, unmodified; the worker run then ends with `result` holding it and
`error` unset. -/
theorem stop_success_returns_text (resp : GeminiResponse) (c : Candidate)
    (cs : List Candidate) (ct : Content) (p : RespPart) (ps : List RespPart) (t : String)
    (herr : resp.error = none)
    (hsafe : ∀ r ∈ safety_ratings_of resp, r.blocked = false)
    (hc : resp.candidates = c :: cs)
    (hfr : c.finishReason = some "STOP")
    (hct : c.content = some ct)
    (hp : ct.parts = p :: ps)
    (ht : p.text = some t)
    (hne : t ≠ "") :
    get_gemini_response resp = .ok t ∧
    run_final ⟨false, none, none⟩ (get_gemini_response resp) = ⟨false, some t, none⟩ := by
  have hfind : (safety_ratings_of resp).find? (·.blocked) = none := by
    rw [List.find?_eq_none]
    intro r hr
    simpa using hsafe r hr
  have h1 : get_gemini_response resp = .ok t := by
    simp [get_gemini_response, herr, hfind, hc, hfr, extract_text, hct, hp, ht, hne]
  exact ⟨h1, by simp [h1, run_final, run_writes, applyWrite]⟩

/-- A concrete clean success response for the C3 witness. -/
def c3resp : GeminiResponse :=
  ⟨none, none, [⟨some "STOP", some ⟨[⟨some "hello"⟩]⟩⟩], none⟩

/-- Witness for C3 at a concrete successful response. -/
theorem stop_success_returns_text_witness :
    get_gemini_response c3resp = .ok "hello" ∧
    run_final ⟨false, none, none⟩ (get_gemini_response c3resp) = ⟨false, some "hello", none⟩ :=
  stop_success_returns_text c3resp ⟨some "STOP", some ⟨[⟨some "hello"⟩]⟩⟩ []
    ⟨[⟨some "hello"⟩]⟩ ⟨some "hello"⟩ [] "hello" rfl
    (by simp [safety_ratings_of, c3resp]) rfl rfl rfl rfl rfl (by decide)

/-- C5: with no top-level error and a blocked entry among
`promptFeedback.safetyRatings`, the client fails with a message carrying
that entry's reason (`"Unknown reason"` when absent) — `r` is the first
blocked entry, the one the source's `for` loop raises on — and the
outcome is the same for every value of `candidates` and `usageMetadata`
(candidate inspection is never reached). -/
theorem blocked_prompt_fails (pf : PromptFeedback) (cands : List Candidate)
    (usage : Option UsageMetadata) (r : SafetyRating)
    (hfind : pf.safetyRatings.find? (·.blocked) = some r) :
    get_gemini_response ⟨none, some pf, cands, usage⟩ =
      .error ("Prompt blocked by safety filters: " ++ r.reason.getD "Unknown reason") ∧
    containsStr ("Prompt blocked by safety filters: " ++ r.reason.getD "Unknown reason")
      (r.reason.getD "Unknown reason") ∧
    (∀ cands2 usage2, get_gemini_response ⟨none, some pf, cands2, usage2⟩ =
      get_gemini_response ⟨none, some pf, cands, usage⟩) := by
  refine ⟨?_, ?_, ?_⟩
  · simp [get_gemini_response, safety_ratings_of, hfind]
  · exact containsStr_of_right _ _ _ List.infix_rfl
  · intro cands2 usage2
    simp [get_gemini_response, safety_ratings_of, hfind]

/-- Witness for C5: a single rating `blocked: true, reason: "HARM"`
fails citing `HARM`, independently of the candidates. -/
theorem blocked_prompt_fails_witness :
    get_gemini_response ⟨none, some ⟨[⟨true, some "HARM"⟩]⟩, [], none⟩ =
      .error "Prompt blocked by safety filters: HARM" ∧
    containsStr "Prompt blocked by safety filters: HARM" "HARM" := by
  have h := blocked_prompt_fails ⟨[⟨true, some "HARM"⟩]⟩ [] none ⟨true, some "HARM"⟩ rfl
  refine ⟨?_, by decide⟩
  rw [h.1]
  rfl

/-- The C4 counterexample input: a response carrying both a top-level
`error` and a first candidate with `finishReason: "MAX_TOKENS"` and
`usageMetadata.totalTokenCount: 250`. -/
def c4resp : GeminiResponse :=
  ⟨some ⟨some "quota exceeded"⟩, none, [⟨some "MAX_TOKENS", none⟩], some ⟨some 250⟩⟩

/-- C4 counterexample: on `c4resp` the first candidate's finishReason
is `MAX_TOKENS`, yet the client's failure message is the top-level API
error, which contains neither the token count nor a `max_tokens`
suggestion — refuting the claim as stated for this response. -/
theorem max_tokens_claim_counterexample :
    c4resp.candidates = [⟨some "MAX_TOKENS", none⟩] ∧
    totalTokenCount c4resp = 250 ∧
    get_gemini_response c4resp = .error "API Error: quota exceeded" ∧
    ¬ containsStr "API Error: quota exceeded" (toString (totalTokenCount c4resp)) ∧
    ¬ containsStr "API Error: quota exceeded" "max_tokens" := by
  refine ⟨rfl, rfl, rfl, ?_, ?_⟩ <;> decide

/-- C4 (amended): for a response without a top-level error and without
any blocked prompt safety rating whose first candidate's finishReason
is `MAX_TOKENS`, the client fails with a message containing the
response's `usageMetadata.totalTokenCount` (0 when absent) and the
suggestion to raise the `max_tokens` setting. -/
theorem max_tokens_failure (resp : GeminiResponse) (c : Candidate) (cs : List Candidate)
    (herr : resp.error = none)
    (hsafe : ∀ r ∈ safety_ratings_of resp, r.blocked = false)
    (hc : resp.candidates = c :: cs)
    (hfr : c.finishReason = some "MAX_TOKENS") :
    get_gemini_response resp =
      .error ("Gemini finished early due to max tokens limit. Used " ++ toString (totalTokenCount resp) ++ " tokens. Try increasing \x27max_tokens\x27 in settings.") ∧
    containsStr ("Gemini finished early due to max tokens limit. Used " ++ toString (totalTokenCount resp) ++ " tokens. Try increasing \x27max_tokens\x27 in settings.")
      (toString (totalTokenCount resp)) ∧
    containsStr ("Gemini finished early due to max tokens limit. Used " ++ toString (totalTokenCount resp) ++ " tokens. Try increasing \x27max_tokens\x27 in settings.")
      "max_tokens" ∧
    (resp.usageMetadata = none → totalTokenCount resp = 0) := by
  have hfind : (safety_ratings_of resp).find? (·.blocked) = none := by
    rw [List.find?_eq_none]
    intro r hr
    simpa using hsafe r hr
  refine ⟨?_, ?_, ?_, ?_⟩
  · simp [get_gemini_response, herr, hfind, hc, hfr]
  · exact containsStr_of_eq _ _ _
  · exact containsStr_of_right _ _ _ (by decide)
  · intro h
    simp [totalTokenCount, h]

/-- A clean truncated response for the C4 witness. -/
def mtresp : GeminiResponse :=
  ⟨none, none, [⟨some "MAX_TOKENS", none⟩], some ⟨some 250⟩⟩

/-- Witness for the amended C4 at a concrete truncated response. -/
theorem max_tokens_failure_witness :
    get_gemini_response mtresp =
      .error ("Gemini finished early due to max tokens limit. Used " ++ toString (totalTokenCount mtresp) ++ " tokens. Try increasing \x27max_tokens\x27 in settings.") ∧
    containsStr ("Gemini finished early due to max tokens limit. Used " ++ toString (totalTokenCount mtresp) ++ " tokens. Try increasing \x27max_tokens\x27 in settings.")
      (toString (totalTokenCount mtresp)) ∧
    containsStr ("Gemini finished early due to max tokens limit. Used " ++ toString (totalTokenCount mtresp) ++ " tokens. Try increasing \x27max_tokens\x27 in settings.")
      "max_tokens" := by
  have h := max_tokens_failure mtresp ⟨some "MAX_TOKENS", none⟩ [] rfl
    (by simp [safety_ratings_of, mtresp]) rfl rfl
  exact ⟨h.1, h.2.1, h.2.2.1⟩

/-- C6: with `max_seconds` resolving to 2 and a worker whose `running`
flag stays true, the polling chain emits exactly three thinking status
updates (elapsed 0, 1, 2), then a timeout status on the tick at elapsed
3 and nothing further; the success callback is never dispatched and no
error dialog is shown. -/
theorem polling_timeout_after_three_ticks (v : ViewModel) (worker : Nat → WorkerView)
    (hmax : get_setting v "max_seconds" (.num 60) = .num 2)
    (hrun : ∀ n, (worker n).running = true) :
    handle_thread v worker 0 =
      [.statusThinking 0 2, .statusThinking 1 2, .statusThinking 2 2, .statusTimeout 2] ∧
    PollEvent.successCallback ∉ handle_thread v worker 0 ∧
    (∀ m, PollEvent.errorDialog m ∉ handle_thread v worker 0) := by
  have hstep : ∀ s : Nat, (s : Int) ≤ 2 →
      handle_thread_go 2 worker s = .statusThinking s 2 :: handle_thread_go 2 worker (s + 1) := by
    intro s hs
    rw [handle_thread_go]
    simp [not_lt.mpr hs, hrun s]
  have hlast : handle_thread_go 2 worker 3 = [.statusTimeout 2] := by
    rw [handle_thread_go]
    norm_num
  have htrace : handle_thread v worker 0 =
      [.statusThinking 0 2, .statusThinking 1 2, .statusThinking 2 2, .statusTimeout 2] := by
    show handle_thread v worker 0 = _
    rw [show handle_thread v worker 0 = handle_thread_go 2 worker 0 by
      simp [handle_thread, hmax]]
    rw [hstep 0 (by norm_num), hstep 1 (by norm_num), hstep 2 (by norm_num), hlast]
  refine ⟨htrace, ?_, ?_⟩
  · rw [htrace]; simp
  · intro m; rw [htrace]; simp

/-- A view whose global settings resolve `max_seconds` to 2, for the C6
witness. -/
def c6view : ViewModel := ⟨[], [("max_seconds", JValue.num 2)], []⟩

/-- A worker that never terminates, for the C6 witness. -/
def alwaysRunning : Nat → WorkerView := fun _ => ⟨true, none, none⟩

/-- Witness for C6 at a concrete view and a never-terminating worker. -/
theorem polling_timeout_after_three_ticks_witness :
    handle_thread c6view alwaysRunning 0 =
      [.statusThinking 0 2, .statusThinking 1 2, .statusThinking 2 2, .statusTimeout 2] ∧
    PollEvent.successCallback ∉ handle_thread c6view alwaysRunning 0 := by
  have h := polling_timeout_after_three_ticks c6view alwaysRunning rfl (fun n => rfl)
  exact ⟨h.1, h.2.1⟩

/-- C7: a completion invocation with no resolved `api_token` shows a
blocking error dialog and aborts, and one with `no_empty_selection`
truthy and an empty selection list or an empty primary selection shows
a status message and aborts; in either case the outcome is an abort,
never `started` (no background worker is constructed). -/
theorem completion_run_guards (v : ViewModel) :
    ((get_setting v "api_token" JValue.null).isNull = true →
      completion_run v = .aborted (.errorDialog "Please put an \x27api_token\x27 in the GeminiAI package settings") ∧
      ∀ reg, completion_run v ≠ RunOutcome.started reg) ∧
    ((get_setting v "api_token" JValue.null).isNull = false →
      (get_setting v "no_empty_selection" (JValue.bool true)).truthy = true →
      (v.sel = [] ∨ (v.sel.head?.map Region.isEmpty).getD false = true) →
      completion_run v = .aborted (.statusMessage "Please highlight a section of code.") ∧
      ∀ reg, completion_run v ≠ RunOutcome.started reg) := by
  constructor
  · intro htok
    have h : completion_run v = .aborted (.errorDialog "Please put an \x27api_token\x27 in the GeminiAI package settings") := by
      simp [completion_run, check_setup, htok]
    exact ⟨h, fun reg => by rw [h]; simp⟩
  · intro htok hnes hsel
    have h : completion_run v = .aborted (.statusMessage "Please highlight a section of code.") := by
      rcases hsel with hsel | hsel
      · simp [completion_run, check_setup, htok, hnes, hsel]
      · cases hs : v.sel with
        | nil => rw [hs] at hsel; simp at hsel
        | cons r rest =>
          rw [hs] at hsel
          simp at hsel
          simp [completion_run, check_setup, htok, hnes, hs, hsel]
    exact ⟨h, fun reg => by rw [h]; simp⟩

/-- A view with no `api_token` anywhere, for the C7 witness. -/
def c7viewNoToken : ViewModel := ⟨[], [], []⟩

/-- A view with a token but an empty selection list, for the C7
witness. -/
def c7viewEmptySel : ViewModel := ⟨[], [("api_token", JValue.str "tok")], []⟩

/-- Witness for C7: the missing-token abort and the empty-selection
abort at concrete views. -/
theorem completion_run_guards_witness :
    completion_run c7viewNoToken = .aborted (.errorDialog "Please put an \x27api_token\x27 in the GeminiAI package settings") ∧
    completion_run c7viewEmptySel = .aborted (.statusMessage "Please highlight a section of code.") := by
  have h1 := (completion_run_guards c7viewNoToken).1 rfl
  have h2 := (completion_run_guards c7viewEmptySel).2 rfl rfl (Or.inl rfl)
  exact ⟨h1.1, h2.1⟩

/-- C10: with `no_empty_selection` resolving falsy, a token configured
and an empty selection list, `check_setup` and the zero-selection guard
both pass, the primary-selection access yields no value
(`sel().head? = none`), and the invocation crashes (the uncaught
`IndexError`) instead of constructing a region or starting a worker. -/
theorem completion_run_empty_sel_crash (v : ViewModel)
    (htok : (get_setting v "api_token" JValue.null).isNull = false)
    (hnes : (get_setting v "no_empty_selection" (JValue.bool true)).truthy = false)
    (hsel : v.sel = []) :
    check_setup v = .ok () ∧
    v.sel.head? = none ∧
    completion_run v = .crash ∧
    ∀ reg, completion_run v ≠ RunOutcome.started reg := by
  have hc : check_setup v = .ok () := by
    simp [check_setup, htok, hnes, hsel]
  have h : completion_run v = .crash := by
    simp [completion_run, hc, hnes, hsel]
  exact ⟨hc, by rw [hsel]; rfl, h, fun reg => by rw [h]; simp⟩

/-- A view with a token, `no_empty_selection: false` and no selection,
for the C10 witness. -/
def c10view : ViewModel :=
  ⟨[], [("api_token", JValue.str "tok"), ("no_empty_selection", JValue.bool false)], []⟩

/-- Witness for C10 at a concrete view. -/
theorem completion_run_empty_sel_crash_witness :
    check_setup c10view = .ok () ∧ completion_run c10view = .crash := by
  have h := completion_run_empty_sel_crash c10view rfl rfl rfl
  exact ⟨h.1, h.2.2.1⟩

/-!  Lookup lemmas for the body payload. -/

theorem dget_cons (a : String) (b : JValue) (fs : Obj) (k : String) :
    dget ((a, b) :: fs) k = match k == a with
      | true => some b
      | false => dget fs k :=
  rfl

theorem dget_payload_for_body_model (data : Obj) :
    dget (payload_for_body data) "model" = none := by
  induction data with
  | nil => rfl
  | cons p ps ih =>
    obtain ⟨a, b⟩ := p
    by_cases h : a = "model"
    · subst h
      simp only [payload_for_body, List.filter_cons, bne_self_eq_false,
        Bool.false_eq_true, if_false]
      exact ih
    · have hb : (a != "model") = true := by simp [h]
      have hm : ("model" == a) = false := by simp [Ne.symm h]
      simp only [payload_for_body, List.filter_cons, hb, if_true, dget_cons, hm]
      exact ih

theorem dget_payload_for_body_other (data : Obj) (k : String) (hk : k ≠ "model") :
    dget (payload_for_body data) k = dget data k := by
  induction data with
  | nil => rfl
  | cons p ps ih =>
    obtain ⟨a, b⟩ := p
    by_cases h : a = "model"
    · subst h
      have hka : (k == "model") = false := by simp [hk]
      simp only [payload_for_body, List.filter_cons, bne_self_eq_false,
        Bool.false_eq_true, if_false, dget_cons, hka]
      exact ih
    · have hb : (a != "model") = true := by simp [h]
      simp only [payload_for_body, List.filter_cons, hb, if_true]
      by_cases hkp : (k == a) = true
      · simp only [dget_cons, hkp]
      · have hkf : (k == a) = false := by simpa using hkp
        simp only [dget_cons, hkf]
        exact ih

/-- C8: the serialized body never carries the `model` key; every other
key is carried to the body unchanged; the model name — the payload's
`model` string, or `gemini-2.5-flash` when absent — is consumed into
the URL path `/v1beta/models/model:generateContent?key=token`. -/
theorem model_consumed_into_url (data : Obj) (api_token : String) :
    dget (payload_for_body data) "model" = none ∧
    (∀ k, k ≠ "model" → dget (payload_for_body data) k = dget data k) ∧
    (dget data "model" = none →
      build_api_request data api_token =
        some ⟨"POST", request_path "gemini-2.5-flash" api_token,
          [("Content-Type", "application/json")], payload_for_body data⟩) ∧
    (∀ m, dget data "model" = some (.str m) →
      build_api_request data api_token =
        some ⟨"POST", request_path m api_token,
          [("Content-Type", "application/json")], payload_for_body data⟩) ∧
    (∀ m t, request_path m t = "/v1beta/models/" ++ m ++ ":generateContent?key=" ++ t) := by
  refine ⟨dget_payload_for_body_model data, dget_payload_for_body_other data, ?_, ?_, ?_⟩
  · intro h
    simp [build_api_request, model_name_of, dgetD, h]
  · intro m h
    simp [build_api_request, model_name_of, dgetD, h]
  · intro m t
    rfl

/-- A concrete completion-style payload for the C8 witness. -/
def c8data : Obj := [("model", JValue.str "m1"), ("contents", JValue.arr [])]

/-- Witness for C8 at a concrete payload: the body drops `model`, keeps
`contents`, and the URL path carries the model name. -/
theorem model_consumed_into_url_witness :
    dget (payload_for_body c8data) "model" = none ∧
    dget (payload_for_body c8data) "contents" = dget c8data "contents" ∧
    build_api_request c8data "tok" =
      some ⟨"POST", request_path "m1" "tok",
        [("Content-Type", "application/json")], payload_for_body c8data⟩ := by
  have h := model_consumed_into_url c8data "tok"
  exact ⟨h.1, h.2.1 "contents" (by decide), h.2.2.2.1 "m1" rfl⟩

/-- C9: when the `instruct` settings resolve to a dict, the payload
built by the instruct command holds exactly one user-role content part
whose text is the persona sentence naming the syntax followed by the
fenced code block of the content and an `Instruction:` section holding
the user input, and its `generationConfig` holds only `temperature`
(default 0) and `top_p` (default 1), with no max-output-tokens cap. -/
theorem instruct_payload_shape (v : ViewModel) (settingse : Obj)
    (content syntax_name user_input : String)
    (hs : get_setting v "instruct" JValue.null = .obj settingse) :
    ∃ p, instruct_get_prompt_data v content syntax_name user_input = some p ∧
      dget p "contents" = some (.arr [.obj [("role", .str "user"),
        ("parts", .arr [.obj [("text",
          .str (evaluate_instruction_snippet syntax_name user_input content))]])]]) ∧
      evaluate_instruction_snippet syntax_name user_input content =
        "You are a helpful " ++ syntax_name ++ " coding assistant. The user is a programmer so you don\x27t need to over explain. Respond with markdown.\n"
          ++ (syntax_name ++ " Code:\n\n```" ++ syntax_name.toLower ++ "\n" ++ content ++ "\n```\n\nInstruction:\n\n" ++ user_input) ∧
      dget p "generationConfig" = some (.obj
        [("temperature", dgetD settingse "temperature" (.num 0)),
         ("top_p", dgetD settingse "top_p" (.num 1))]) ∧
      dget [("temperature", dgetD settingse "temperature" (JValue.num 0)),
            ("top_p", dgetD settingse "top_p" (JValue.num 1))] "max_output_tokens" = none := by
  refine ⟨[("model", dgetD settingse "model" (.str "gemini-2.5-flash")),
           ("contents", .arr [.obj [("role", .str "user"),
             ("parts", .arr [.obj [("text",
               .str (evaluate_instruction_snippet syntax_name user_input content))]])]]),
           ("generationConfig", .obj
             [("temperature", dgetD settingse "temperature" (.num 0)),
              ("top_p", dgetD settingse "top_p" (.num 1))])],
          ?_, rfl, rfl, rfl, rfl⟩
  simp [instruct_get_prompt_data, hs]

/-- A view whose `instruct` settings resolve to the empty dict, for the
C9 witness. -/
def c9view : ViewModel := ⟨[], [("instruct", JValue.obj [])], []⟩

/-- Witness for C9 at concrete inputs: the payload exists, its
generation config carries only the two defaults, and the prompt text is
the persona plus fenced block plus instruction section. -/
theorem instruct_payload_shape_witness :
    (instruct_get_prompt_data c9view "x = 1" "Python" "add docs").map
        (fun p => dget p "generationConfig") =
      some (some (.obj [("temperature", JValue.num 0), ("top_p", JValue.num 1)])) ∧
    (instruct_get_prompt_data c9view "x = 1" "Python" "add docs").map
        (fun p => dget p "contents") =
      some (some (.arr [.obj [("role", .str "user"),
        ("parts", .arr [.obj [("text",
          .str (evaluate_instruction_snippet "Python" "add docs" "x = 1"))]])]])) := by
  obtain ⟨p, h1, hc, hsnip, hgc, hcap⟩ :=
    instruct_payload_shape c9view [] "x = 1" "Python" "add docs" rfl
  constructor
  · rw [h1]
    show some (dget p "generationConfig") = _
    rw [hgc]
    rfl
  · rw [h1]
    show some (dget p "contents") = _
    rw [hc]
